import Mathlib

/-!
# Verification of `maintainer/gen_colorspaces.py` (wattbar)

Shallow embedding, over exact rationals, of the color-space matrix
generator: the white-point table, the RGB→XYZ matrix derivation
(`calc_RGB_to_XYZ`), the 3×3 analytic inverse standing for
`numpy.linalg.inv`, and the Rust-emission step `mkRust` (the part of it
that is numeric data: the three emitted (x, y, Y) primary triples and the
two emitted matrices).

Python runtime failures are modelled as values of `Err`:
division of floats by zero raises `ZeroDivisionError`, a missing
dictionary key raises `KeyError`, and `numpy.linalg.inv` of a singular
matrix raises `LinAlgError`.
-/

namespace Wattbar

/-- A 3-component column vector, as produced by `whitepoint` (an
`np.matrix` of shape 3×1 in the source). -/
structure Vec3 where
  x : ℚ
  y : ℚ
  z : ℚ
deriving DecidableEq, Repr

/-- A 3×3 matrix with rational entries, row-major fields. -/
structure Mat3 where
  m00 : ℚ
  m01 : ℚ
  m02 : ℚ
  m10 : ℚ
  m11 : ℚ
  m12 : ℚ
  m20 : ℚ
  m21 : ℚ
  m22 : ℚ
deriving DecidableEq, Repr

/-- The runtime failures the Python script can raise. -/
inductive Err where
  | zeroDivisionError
  | keyError
  | linAlgError
deriving DecidableEq, Repr

instance instDecEqExcept {ε α : Type} [DecidableEq ε] [DecidableEq α] :
    DecidableEq (Except ε α) := fun a b =>
  match a, b with
  | .error e1, .error e2 =>
    match decEq e1 e2 with
    | isTrue h => isTrue (h ▸ rfl)
    | isFalse h => isFalse fun hc => h (by injection hc)
  | .error _, .ok _ => isFalse fun hc => Except.noConfusion hc
  | .ok _, .error _ => isFalse fun hc => Except.noConfusion hc
  | .ok a1, .ok a2 =>
    match decEq a1 a2 with
    | isTrue h => isTrue (h ▸ rfl)
    | isFalse h => isFalse fun hc => h (by injection hc)

/-- The 3×3 identity matrix. -/
def id3 : Mat3 := ⟨1, 0, 0, 0, 1, 0, 0, 0, 1⟩

/-- Matrix product of two 3×3 matrices. -/
def mul3 (A B : Mat3) : Mat3 :=
  ⟨A.m00 * B.m00 + A.m01 * B.m10 + A.m02 * B.m20,
   A.m00 * B.m01 + A.m01 * B.m11 + A.m02 * B.m21,
   A.m00 * B.m02 + A.m01 * B.m12 + A.m02 * B.m22,
   A.m10 * B.m00 + A.m11 * B.m10 + A.m12 * B.m20,
   A.m10 * B.m01 + A.m11 * B.m11 + A.m12 * B.m21,
   A.m10 * B.m02 + A.m11 * B.m12 + A.m12 * B.m22,
   A.m20 * B.m00 + A.m21 * B.m10 + A.m22 * B.m20,
   A.m20 * B.m01 + A.m21 * B.m11 + A.m22 * B.m21,
   A.m20 * B.m02 + A.m21 * B.m12 + A.m22 * B.m22⟩

/-- Matrix–vector product. -/
def mulVec3 (A : Mat3) (v : Vec3) : Vec3 :=
  ⟨A.m00 * v.x + A.m01 * v.y + A.m02 * v.z,
   A.m10 * v.x + A.m11 * v.y + A.m12 * v.z,
   A.m20 * v.x + A.m21 * v.y + A.m22 * v.z⟩

/-- Determinant of a 3×3 matrix. -/
def det3 (A : Mat3) : ℚ :=
  A.m00 * (A.m11 * A.m22 - A.m12 * A.m21)
    - A.m01 * (A.m10 * A.m22 - A.m12 * A.m20)
    + A.m02 * (A.m10 * A.m21 - A.m11 * A.m20)

/-- The analytic (adjugate over determinant) inverse of a 3×3 matrix;
the value `numpy.linalg.inv` computes when the matrix is invertible. -/
def inv3 (A : Mat3) : Mat3 :=
  let d := det3 A
  ⟨(A.m11 * A.m22 - A.m12 * A.m21) / d,
   -(A.m01 * A.m22 - A.m02 * A.m21) / d,
   (A.m01 * A.m12 - A.m02 * A.m11) / d,
   -(A.m10 * A.m22 - A.m12 * A.m20) / d,
   (A.m00 * A.m22 - A.m02 * A.m20) / d,
   -(A.m00 * A.m12 - A.m02 * A.m10) / d,
   (A.m10 * A.m21 - A.m11 * A.m20) / d,
   -(A.m00 * A.m21 - A.m01 * A.m20) / d,
   (A.m00 * A.m11 - A.m01 * A.m10) / d⟩

/-- `numpy.linalg.inv`: raises `LinAlgError` on an (exactly) singular
matrix, otherwise returns the inverse. -/
def npInv (A : Mat3) : Except Err Mat3 :=
  if det3 A = 0 then .error .linAlgError else .ok (inv3 A)

/-- The conversion formula inside `whitepoint`:
`np.matrix([[x/y],[1],[(1-x-y)/y]])`. -/
def whitepointV (x y : ℚ) : Vec3 :=
  ⟨x / y, 1, (1 - x - y) / y⟩

/-- `whitepoint(x, y)` as the Python runtime executes it: float division
by zero raises `ZeroDivisionError`. -/
def whitepoint (x y : ℚ) : Except Err Vec3 :=
  if y = 0 then .error .zeroDivisionError else .ok (whitepointV x y)

/-- The `WhitePoints` dictionary: `{"D65": whitepoint(0.31272, 0.32903),
"D50": whitepoint(0.3457, 0.3585)}`, read as a lookup function; `none`
models a missing key. -/
def WhitePoints (name : String) : Option Vec3 :=
  if name = "D65" then some (whitepointV 0.31272 0.32903)
  else if name = "D50" then some (whitepointV 0.3457 0.3585)
  else none

/-- The unnormalized primary matrix `xyz` built inside `calc_RGB_to_XYZ`:
columns `(x_i/y_i, 1, (1-x_i-y_i)/y_i)` for i = red, green, blue. -/
def xyzMatrix (xr yr xg yg xb yb : ℚ) : Mat3 :=
  ⟨xr / yr, xg / yg, xb / yb,
   1, 1, 1,
   (1 - xr - yr) / yr, (1 - xg - yg) / yg, (1 - xb - yb) / yb⟩

/-- `np.multiply(xyz, S.transpose())`: scales column i of `A` by the
i-th component of `S` (broadcasting a 1×3 row across the rows). -/
def colScale (A : Mat3) (S : Vec3) : Mat3 :=
  ⟨A.m00 * S.x, A.m01 * S.y, A.m02 * S.z,
   A.m10 * S.x, A.m11 * S.y, A.m12 * S.z,
   A.m20 * S.x, A.m21 * S.y, A.m22 * S.z⟩

/-- `calc_RGB_to_XYZ(wp, xr, yr, xg, yg, xb, yb)`. The divisions
`x_i/y_i` raise `ZeroDivisionError` when some `y_i = 0`;
`np.linalg.inv(xyz)` raises `LinAlgError` when `xyz` is singular;
otherwise `S = inv(xyz) * wp` and the result is `xyz` with column i
scaled by `S_i`. -/
def calc_RGB_to_XYZ (wp : Vec3) (xr yr xg yg xb yb : ℚ) : Except Err Mat3 :=
  if yr = 0 ∨ yg = 0 ∨ yb = 0 then .error .zeroDivisionError
  else
    match npInv (xyzMatrix xr yr xg yg xb yb) with
    | .error e => .error e
    | .ok inv =>
      let S := mulVec3 inv wp
      .ok (colScale (xyzMatrix xr yr xg yg xb yb) S)

/-- One emitted `(x, y, Y)` triple, as in `Yxy::new(x, y, Y)`. -/
structure Yxy where
  x : ℚ
  y : ℚ
  lum : ℚ
deriving DecidableEq, Repr

/-- The numeric data of one emitted Rust declaration block: the three
primary triples and the two matrices. -/
structure EmittedColorSpace where
  red : Yxy
  green : Yxy
  blue : Yxy
  rgbToXyz : Mat3
  xyzToRgb : Mat3
deriving DecidableEq, Repr

/-- `mkRust(name, wp, xr, yr, xg, yg, xb, yb)`: looks up the white
point (`KeyError` when missing), runs `calc_RGB_to_XYZ`, inverts the
result for the XYZ→RGB matrix, and emits the data. Note the emitted
template uses `{xr} {yr} {Yr}` for red but `{xg} {yr} {Yr}` for green
and `{xb} {yr} {Yr}` for blue, where `Yr = M[1,0]`. -/
def mkRust (wpName : String) (xr yr xg yg xb yb : ℚ) :
    Except Err EmittedColorSpace :=
  match WhitePoints wpName with
  | none => .error .keyError
  | some wp =>
    match calc_RGB_to_XYZ wp xr yr xg yg xb yb with
    | .error e => .error e
    | .ok M =>
      match npInv M with
      | .error e => .error e
      | .ok Minv =>
        .ok { red := ⟨xr, yr, M.m10⟩
              green := ⟨xg, yr, M.m10⟩
              blue := ⟨xb, yr, M.m10⟩
              rgbToXyz := M
              xyzToRgb := Minv }

/-- Extract the emitted record from a `mkRust` result (zero record on
error; only applied where the run is proved to succeed). -/
def getEmit (r : Except Err EmittedColorSpace) : EmittedColorSpace :=
  r.toOption.getD ⟨⟨0, 0, 0⟩, ⟨0, 0, 0⟩, ⟨0, 0, 0⟩,
    ⟨0, 0, 0, 0, 0, 0, 0, 0, 0⟩, ⟨0, 0, 0, 0, 0, 0, 0, 0, 0⟩⟩

/-- Extract the matrix from a `calc_RGB_to_XYZ` result (zero matrix on
error; only applied where the run is proved to succeed). -/
def calcM (r : Except Err Mat3) : Mat3 :=
  r.toOption.getD ⟨0, 0, 0, 0, 0, 0, 0, 0, 0⟩

/-! ## Spec-side definitions (for the refinement claim C6)

These re-state, in the spec's own words (§4.2, "scaled primaries"),
what the builder is claimed to compute; they are compared with the
source-derived `calc_RGB_to_XYZ` above. -/

/-- Modelled from the spec: step 1–2, the matrix M₀ whose column i is
`(x_i/y_i, 1, (1−x_i−y_i)/y_i)`. -/
def specM0 (xr yr xg yg xb yb : ℚ) : Mat3 :=
  ⟨xr / yr, xg / yg, xb / yb,
   1, 1, 1,
   (1 - xr - yr) / yr, (1 - xg - yg) / yg, (1 - xb - yb) / yb⟩

/-- Modelled from the spec: step 3, the scale vector `S = M₀⁻¹ · wp`. -/
def specS (M0 : Mat3) (wp : Vec3) : Vec3 := mulVec3 (inv3 M0) wp

/-- Modelled from the spec: step 4, the final matrix obtained by scaling
column i of M₀ by S_i. -/
def specScaledPrimaries (wp : Vec3) (xr yr xg yg xb yb : ℚ) : Mat3 :=
  let M0 := specM0 xr yr xg yg xb yb
  let S := specS M0 wp
  ⟨M0.m00 * S.x, M0.m01 * S.y, M0.m02 * S.z,
   M0.m10 * S.x, M0.m11 * S.y, M0.m12 * S.z,
   M0.m20 * S.x, M0.m21 * S.y, M0.m22 * S.z⟩

/-! ## Helper lemmas -/

theorem mul3_inv3 (A : Mat3) (h : det3 A ≠ 0) : mul3 A (inv3 A) = id3 := by
  obtain ⟨a, b, c, d, e, f, g, hh, i⟩ := A
  simp only [det3] at h
  simp only [mul3, inv3, id3, det3, Mat3.mk.injEq]
  refine ⟨?_, ?_, ?_, ?_, ?_, ?_, ?_, ?_, ?_⟩ <;>
    · field_simp
      ring

theorem mulVec3_mul3 (A B : Mat3) (v : Vec3) :
    mulVec3 (mul3 A B) v = mulVec3 A (mulVec3 B v) := by
  simp only [mulVec3, mul3, Vec3.mk.injEq]
  refine ⟨by ring, by ring, by ring⟩

theorem mulVec3_id3 (v : Vec3) : mulVec3 id3 v = v := by
  simp only [mulVec3, id3]
  obtain ⟨a, b, c⟩ := v
  simp only [Vec3.mk.injEq]
  refine ⟨by ring, by ring, by ring⟩

/-- Inverting `calc_RGB_to_XYZ wp … = .ok M`: the primary matrix is
nonsingular and `M` is the column-scaled matrix. -/
theorem calc_ok_iff (wp : Vec3) (xr yr xg yg xb yb : ℚ) (M : Mat3) :
    calc_RGB_to_XYZ wp xr yr xg yg xb yb = .ok M ↔
      ¬(yr = 0 ∨ yg = 0 ∨ yb = 0) ∧
      det3 (xyzMatrix xr yr xg yg xb yb) ≠ 0 ∧
      M = colScale (xyzMatrix xr yr xg yg xb yb)
            (mulVec3 (inv3 (xyzMatrix xr yr xg yg xb yb)) wp) := by
  unfold calc_RGB_to_XYZ npInv
  constructor
  · intro h
    split at h
    · exact absurd h (by simp)
    · rename_i hys
      split at h
      · exact absurd h (by simp)
      · rename_i inv heq
        rcases eq_or_ne (det3 (xyzMatrix xr yr xg yg xb yb)) 0 with hdet | hdet
        · rw [if_pos hdet] at heq
          exact absurd heq (by simp)
        · rw [if_neg hdet] at heq
          injection heq with hinv
          subst hinv
          exact ⟨hys, hdet, by simpa using h.symm⟩
  · rintro ⟨h1, h2, rfl⟩
    rw [if_neg h1, if_neg h2]

/-- Core invariant: when the derivation succeeds, applying the result to
`(1,1,1)` reproduces the white-point vector exactly. -/
theorem calc_preserves_wp (wp : Vec3) (xr yr xg yg xb yb : ℚ) (M : Mat3)
    (h : calc_RGB_to_XYZ wp xr yr xg yg xb yb = .ok M) :
    mulVec3 M ⟨1, 1, 1⟩ = wp := by
  rw [calc_ok_iff] at h
  obtain ⟨-, hdet, rfl⟩ := h
  set A := xyzMatrix xr yr xg yg xb yb with hA
  have key : mulVec3 (colScale A (mulVec3 (inv3 A) wp)) ⟨1, 1, 1⟩ =
      mulVec3 A (mulVec3 (inv3 A) wp) := by
    simp only [mulVec3, colScale, Vec3.mk.injEq]
    refine ⟨by ring, by ring, by ring⟩
  rw [key, ← mulVec3_mul3, mul3_inv3 A hdet, mulVec3_id3]

/-! ## Claims -/

/-- C1: the spec says each emitted primary is its own `(x, y, Y)` triple
(with `Y` the primary's own luminance coefficient from the Y-row of the
final matrix). The code instead emits red's chromaticity `y` and red's
coefficient `M[1,0]` for all three primaries: at the DisplayP3 entry the
run succeeds, the green triple's second component is 0.320 (red's y, not
green's 0.690), and both green's and blue's emitted luminance equal
`M[1,0]` rather than `M[1,1]` / `M[1,2]`. -/
theorem C1_emitted_green_uses_red_coordinates :
    mkRust "D65" 0.680 0.320 0.265 0.690 0.150 0.060 =
      .ok (getEmit (mkRust "D65" 0.680 0.320 0.265 0.690 0.150 0.060)) ∧
    (getEmit (mkRust "D65" 0.680 0.320 0.265 0.690 0.150 0.060)).green.y = 0.320 ∧
    (0.320 : ℚ) ≠ 0.690 ∧
    (getEmit (mkRust "D65" 0.680 0.320 0.265 0.690 0.150 0.060)).green.lum =
      (getEmit (mkRust "D65" 0.680 0.320 0.265 0.690 0.150 0.060)).rgbToXyz.m10 ∧
    (getEmit (mkRust "D65" 0.680 0.320 0.265 0.690 0.150 0.060)).green.lum ≠
      (getEmit (mkRust "D65" 0.680 0.320 0.265 0.690 0.150 0.060)).rgbToXyz.m11 ∧
    (getEmit (mkRust "D65" 0.680 0.320 0.265 0.690 0.150 0.060)).blue.y = 0.320 ∧
    (getEmit (mkRust "D65" 0.680 0.320 0.265 0.690 0.150 0.060)).blue.lum ≠
      (getEmit (mkRust "D65" 0.680 0.320 0.265 0.690 0.150 0.060)).rgbToXyz.m12 := by
  norm_num [mkRust, WhitePoints, calc_RGB_to_XYZ, npInv, xyzMatrix, colScale,
    mulVec3, inv3, det3, whitepointV, getEmit, Except.toOption]

/-- C2: whenever `mkRust` succeeds, the emitted RGB→XYZ and XYZ→RGB
matrices multiply to the exact 3×3 identity (exact arithmetic; hence
within any tolerance). -/
theorem C2_roundtrip (wpName : String) (xr yr xg yg xb yb : ℚ)
    (e : EmittedColorSpace) (h : mkRust wpName xr yr xg yg xb yb = .ok e) :
    mul3 e.rgbToXyz e.xyzToRgb = id3 := by
  unfold mkRust at h
  split at h
  · exact absurd h (by simp)
  · split at h
    · exact absurd h (by simp)
    · rename_i M hM
      unfold npInv at h
      rcases eq_or_ne (det3 M) 0 with hdet | hdet
      · rw [if_pos hdet] at h
        exact absurd h (by simp)
      · rw [if_neg hdet] at h
        have he : e = ⟨⟨xr, yr, M.m10⟩, ⟨xg, yr, M.m10⟩, ⟨xb, yr, M.m10⟩,
            M, inv3 M⟩ := by
          simpa using h.symm
        rw [he]
        exact mul3_inv3 M hdet

/-- Witness for C2 at a concrete successful run. -/
theorem C2_roundtrip_witness :
    mul3 (getEmit (mkRust "D65" (1/2) (1/2) (1/4) (1/2) (1/4) (1/4))).rgbToXyz
      (getEmit (mkRust "D65" (1/2) (1/2) (1/4) (1/2) (1/4) (1/4))).xyzToRgb = id3 :=
  C2_roundtrip "D65" (1/2) (1/2) (1/4) (1/2) (1/4) (1/4)
    (getEmit (mkRust "D65" (1/2) (1/2) (1/4) (1/2) (1/4) (1/4)))
    (by norm_num [mkRust, WhitePoints, calc_RGB_to_XYZ, npInv, xyzMatrix,
      colScale, mulVec3, inv3, det3, whitepointV, getEmit, Except.toOption])

/-- C3: whenever `calc_RGB_to_XYZ` succeeds (all y_i nonzero and
non-singular primary matrix), applying the result to `(1,1,1)` yields the
white-point vector scaled by a positive constant (in fact exactly, with
constant 1). -/
theorem C3_white_point_preservation (wp : Vec3) (xr yr xg yg xb yb : ℚ)
    (M : Mat3) (h : calc_RGB_to_XYZ wp xr yr xg yg xb yb = .ok M) :
    ∃ c : ℚ, 0 < c ∧ mulVec3 M ⟨1, 1, 1⟩ = ⟨c * wp.x, c * wp.y, c * wp.z⟩ := by
  refine ⟨1, one_pos, ?_⟩
  rw [calc_preserves_wp wp xr yr xg yg xb yb M h]
  obtain ⟨a, b, c⟩ := wp
  simp

/-- Witness for C3 at a concrete successful run. -/
theorem C3_white_point_preservation_witness :
    ∃ c : ℚ, 0 < c ∧
      mulVec3 (calcM (calc_RGB_to_XYZ (whitepointV 0.31272 0.32903)
          0.640 0.330 0.300 0.600 0.150 0.060)) ⟨1, 1, 1⟩ =
        ⟨c * (whitepointV 0.31272 0.32903).x, c * (whitepointV 0.31272 0.32903).y,
         c * (whitepointV 0.31272 0.32903).z⟩ :=
  C3_white_point_preservation (whitepointV 0.31272 0.32903)
    0.640 0.330 0.300 0.600 0.150 0.060
    (calcM (calc_RGB_to_XYZ (whitepointV 0.31272 0.32903)
      0.640 0.330 0.300 0.600 0.150 0.060))
    (by norm_num [calc_RGB_to_XYZ, npInv, xyzMatrix, colScale, mulVec3,
      inv3, det3, whitepointV, calcM, Except.toOption])

/-- C4 counterexample: a chromaticity with x + y > 1 (red = (0.9, 0.2))
is not rejected at all — the derivation succeeds and returns a matrix,
so no `InvalidChromaticity` (or any) error is raised. -/
theorem C4_counterexample :
    (0.9 + 0.2 : ℚ) > 1 ∧
    calc_RGB_to_XYZ (whitepointV 0.31272 0.32903) 0.9 0.2 0.3 0.6 0.15 0.06 =
      .ok (calcM (calc_RGB_to_XYZ (whitepointV 0.31272 0.32903)
        0.9 0.2 0.3 0.6 0.15 0.06)) := by
  constructor
  · norm_num
  · norm_num [calc_RGB_to_XYZ, npInv, xyzMatrix, colScale, mulVec3, inv3,
      det3, whitepointV, calcM, Except.toOption]

/-- C4 amended: a chromaticity with y = 0 makes the derivation fail with
the division-by-zero error before matrix construction; x + y > 1 is not
rejected (see the counterexample). -/
theorem C4_amended_zero_division (wp : Vec3) (xr yr xg yg xb yb : ℚ)
    (h : yr = 0 ∨ yg = 0 ∨ yb = 0) :
    calc_RGB_to_XYZ wp xr yr xg yg xb yb = .error .zeroDivisionError := by
  unfold calc_RGB_to_XYZ
  rw [if_pos h]

/-- Witness for the amended C4 at y_r = 0. -/
theorem C4_amended_zero_division_witness :
    calc_RGB_to_XYZ (whitepointV 0.31272 0.32903) 0.3 0 0.3 0.6 0.15 0.06 =
      .error .zeroDivisionError :=
  C4_amended_zero_division (whitepointV 0.31272 0.32903)
    0.3 0 0.3 0.6 0.15 0.06 (Or.inl rfl)

/-- C5 counterexample: a primary set whose unnormalized matrix has
absolute determinant below 1e-12 but nonzero is *not* rejected — the
derivation succeeds. There is no epsilon threshold in the code. -/
theorem C5_counterexample :
    |det3 (xyzMatrix 0.3 0.3 0.3000001 0.3 0.3 0.3000001)| <
      1 / 1000000000000 ∧
    det3 (xyzMatrix 0.3 0.3 0.3000001 0.3 0.3 0.3000001) ≠ 0 ∧
    calc_RGB_to_XYZ (whitepointV 0.31272 0.32903)
        0.3 0.3 0.3000001 0.3 0.3 0.3000001 =
      .ok (calcM (calc_RGB_to_XYZ (whitepointV 0.31272 0.32903)
        0.3 0.3 0.3000001 0.3 0.3 0.3000001)) := by
  refine ⟨?_, ?_, ?_⟩
  · rw [abs_lt]
    constructor <;> norm_num [xyzMatrix, det3]
  · norm_num [xyzMatrix, det3]
  · norm_num [calc_RGB_to_XYZ, npInv, xyzMatrix, colScale, mulVec3, inv3,
      det3, whitepointV, calcM, Except.toOption]

/-- C5 amended: with all y_i nonzero, the derivation fails with the
singular-matrix error (numpy's `LinAlgError`) exactly when the
unnormalized primary matrix has determinant equal to zero. -/
theorem C5_amended_singular (wp : Vec3) (xr yr xg yg xb yb : ℚ)
    (hr : yr ≠ 0) (hg : yg ≠ 0) (hb : yb ≠ 0) :
    calc_RGB_to_XYZ wp xr yr xg yg xb yb = .error .linAlgError ↔
      det3 (xyzMatrix xr yr xg yg xb yb) = 0 := by
  unfold calc_RGB_to_XYZ npInv
  rw [if_neg (by tauto : ¬(yr = 0 ∨ yg = 0 ∨ yb = 0))]
  rcases eq_or_ne (det3 (xyzMatrix xr yr xg yg xb yb)) 0 with hdet | hdet
  · rw [if_pos hdet]
    simp [hdet]
  · rw [if_neg hdet]
    simp [hdet]

/-- Witness for the amended C5: the collinear primaries
red = green = blue = (0.3, 0.3) produce the singular-matrix error. -/
theorem C5_amended_singular_witness :
    calc_RGB_to_XYZ (whitepointV 0.31272 0.32903) 0.3 0.3 0.3 0.3 0.3 0.3 =
      .error .linAlgError :=
  (C5_amended_singular (whitepointV 0.31272 0.32903) 0.3 0.3 0.3 0.3 0.3 0.3
    (by norm_num) (by norm_num) (by norm_num)).mpr
    (by norm_num [xyzMatrix, det3])

/-- C6: with all y_i nonzero and M₀ nonsingular, `calc_RGB_to_XYZ`
returns exactly the scaled-primaries matrix described by the spec
(M₀ built from the chromaticities, S = M₀⁻¹ · wp, columns of M₀ scaled
by S); the result is the value of a pure function of the primaries and
the white point, hence uniquely determined. -/
theorem C6_scaled_primaries_refinement (wp : Vec3) (xr yr xg yg xb yb : ℚ)
    (hr : yr ≠ 0) (hg : yg ≠ 0) (hb : yb ≠ 0)
    (hdet : det3 (specM0 xr yr xg yg xb yb) ≠ 0) :
    calc_RGB_to_XYZ wp xr yr xg yg xb yb =
      .ok (specScaledPrimaries wp xr yr xg yg xb yb) := by
  rw [calc_ok_iff]
  exact ⟨by tauto, hdet, rfl⟩

/-- Witness for C6 at the sRGB-like primaries. -/
theorem C6_scaled_primaries_refinement_witness :
    calc_RGB_to_XYZ (whitepointV 0.31272 0.32903)
        0.640 0.330 0.300 0.600 0.150 0.060 =
      .ok (specScaledPrimaries (whitepointV 0.31272 0.32903)
        0.640 0.330 0.300 0.600 0.150 0.060) :=
  C6_scaled_primaries_refinement (whitepointV 0.31272 0.32903)
    0.640 0.330 0.300 0.600 0.150 0.060
    (by norm_num) (by norm_num) (by norm_num) (by norm_num [specM0, det3])

/-- C7 counterexample: at the reference scenario the (2,2) entry of the
computed matrix differs from 0.9505 by more than 1e-4 (the exact value
is 70069366/73735623 ≈ 0.950278, about 2.22e-4 away). -/
theorem C7_counterexample :
    calc_RGB_to_XYZ (whitepointV 0.31272 0.32903)
        0.640 0.330 0.300 0.600 0.150 0.060 =
      .ok (calcM (calc_RGB_to_XYZ (whitepointV 0.31272 0.32903)
        0.640 0.330 0.300 0.600 0.150 0.060)) ∧
    |(calcM (calc_RGB_to_XYZ (whitepointV 0.31272 0.32903)
        0.640 0.330 0.300 0.600 0.150 0.060)).m22 - 0.9505| > 1 / 10000 := by
  have h : calc_RGB_to_XYZ (whitepointV 0.31272 0.32903)
      0.640 0.330 0.300 0.600 0.150 0.060 =
      .ok (⟨10136384/24578541, 8789030/24578541, 4434770/24578541,
            1742191/8192847, 17578060/24578541, 1773908/24578541,
            158381/8192847, 8789030/73735623, 70069366/73735623⟩ : Mat3) := by
    norm_num [calc_RGB_to_XYZ, npInv, xyzMatrix, colScale, mulVec3, inv3,
      det3, whitepointV]
  constructor
  · rw [h]
    rfl
  · rw [h]
    exact lt_abs.mpr (Or.inr (by norm_num [calcM, Except.toOption]))

/-- C7 amended: at the reference scenario the derivation succeeds and
every entry matches the published matrix within 1e-4 except the (2,2)
entry, which matches 0.9505 within 2.3e-4. -/
theorem C7_amended_reference :
    calc_RGB_to_XYZ (whitepointV 0.31272 0.32903)
        0.640 0.330 0.300 0.600 0.150 0.060 =
      .ok (calcM (calc_RGB_to_XYZ (whitepointV 0.31272 0.32903)
        0.640 0.330 0.300 0.600 0.150 0.060)) ∧
    |(calcM (calc_RGB_to_XYZ (whitepointV 0.31272 0.32903)
        0.640 0.330 0.300 0.600 0.150 0.060)).m00 - 0.4124| ≤ 1 / 10000 ∧
    |(calcM (calc_RGB_to_XYZ (whitepointV 0.31272 0.32903)
        0.640 0.330 0.300 0.600 0.150 0.060)).m01 - 0.3576| ≤ 1 / 10000 ∧
    |(calcM (calc_RGB_to_XYZ (whitepointV 0.31272 0.32903)
        0.640 0.330 0.300 0.600 0.150 0.060)).m02 - 0.1805| ≤ 1 / 10000 ∧
    |(calcM (calc_RGB_to_XYZ (whitepointV 0.31272 0.32903)
        0.640 0.330 0.300 0.600 0.150 0.060)).m10 - 0.2126| ≤ 1 / 10000 ∧
    |(calcM (calc_RGB_to_XYZ (whitepointV 0.31272 0.32903)
        0.640 0.330 0.300 0.600 0.150 0.060)).m11 - 0.7152| ≤ 1 / 10000 ∧
    |(calcM (calc_RGB_to_XYZ (whitepointV 0.31272 0.32903)
        0.640 0.330 0.300 0.600 0.150 0.060)).m12 - 0.0722| ≤ 1 / 10000 ∧
    |(calcM (calc_RGB_to_XYZ (whitepointV 0.31272 0.32903)
        0.640 0.330 0.300 0.600 0.150 0.060)).m20 - 0.0193| ≤ 1 / 10000 ∧
    |(calcM (calc_RGB_to_XYZ (whitepointV 0.31272 0.32903)
        0.640 0.330 0.300 0.600 0.150 0.060)).m21 - 0.1192| ≤ 1 / 10000 ∧
    |(calcM (calc_RGB_to_XYZ (whitepointV 0.31272 0.32903)
        0.640 0.330 0.300 0.600 0.150 0.060)).m22 - 0.9505| ≤ 23 / 100000 := by
  have h : calc_RGB_to_XYZ (whitepointV 0.31272 0.32903)
      0.640 0.330 0.300 0.600 0.150 0.060 =
      .ok (⟨10136384/24578541, 8789030/24578541, 4434770/24578541,
            1742191/8192847, 17578060/24578541, 1773908/24578541,
            158381/8192847, 8789030/73735623, 70069366/73735623⟩ : Mat3) := by
    norm_num [calc_RGB_to_XYZ, npInv, xyzMatrix, colScale, mulVec3, inv3,
      det3, whitepointV]
  rw [h]
  refine ⟨rfl, ?_, ?_, ?_, ?_, ?_, ?_, ?_, ?_, ?_⟩ <;>
    · rw [abs_le]
      constructor <;> norm_num [calcM, Except.toOption]

/-- C8: the white-point conversion on any pair with y ≠ 0 returns
exactly (x/y, 1, (1−x−y)/y); every vector stored in the `WhitePoints`
table has Y component exactly 1. -/
theorem C8_whitepoint_conversion :
    (∀ x y : ℚ, y ≠ 0 → whitepoint x y = .ok ⟨x / y, 1, (1 - x - y) / y⟩) ∧
    (∀ n v, WhitePoints n = some v → v.y = 1) := by
  constructor
  · intro x y hy
    rw [whitepoint, if_neg hy]
    rfl
  · intro n v h
    unfold WhitePoints at h
    split_ifs at h
    · injection h with h
      rw [← h]
      rfl
    · injection h with h
      rw [← h]
      rfl

/-- Witness for C8 at (x, y) = (1, 2) and at the D65 table entry. -/
theorem C8_whitepoint_conversion_witness :
    whitepoint 1 2 = .ok ⟨1 / 2, 1, (1 - 1 - 2) / 2⟩ ∧
    (whitepointV 0.31272 0.32903).y = 1 :=
  ⟨C8_whitepoint_conversion.1 1 2 (by norm_num),
   C8_whitepoint_conversion.2 "D65" (whitepointV 0.31272 0.32903)
     (by norm_num [WhitePoints])⟩

/-- C9: a white-point name other than "D65" and "D50" makes `mkRust`
fail with the missing-key error (Python's `KeyError`, the spec's
`UnknownWhitePoint`); the two names in the table resolve to their
vectors without error. -/
theorem C9_whitepoint_lookup :
    (∀ n : String, n ≠ "D65" → n ≠ "D50" →
      ∀ xr yr xg yg xb yb : ℚ,
        mkRust n xr yr xg yg xb yb = .error .keyError) ∧
    WhitePoints "D65" = some (whitepointV 0.31272 0.32903) ∧
    WhitePoints "D50" = some (whitepointV 0.3457 0.3585) := by
  refine ⟨?_, ?_, ?_⟩
  · intro n h65 h50 xr yr xg yg xb yb
    unfold mkRust WhitePoints
    rw [if_neg h65, if_neg h50]
  · unfold WhitePoints
    rw [if_pos rfl]
  · unfold WhitePoints
    rw [if_neg (by decide), if_pos rfl]

/-- Witness for C9 at the unknown name "sRGB". -/
theorem C9_whitepoint_lookup_witness :
    mkRust "sRGB" 0 0 0 0 0 0 = .error .keyError :=
  C9_whitepoint_lookup.1 "sRGB" (by decide) (by decide) 0 0 0 0 0 0

/-- C10: whenever the derivation succeeds on a white point built by the
chromaticity-to-XYZ conversion (whose Y component is 1 by construction),
the Y-row of the resulting matrix sums to exactly 1. -/
theorem C10_luminance_row_sums_to_one (x y xr yr xg yg xb yb : ℚ)
    (M : Mat3)
    (h : calc_RGB_to_XYZ (whitepointV x y) xr yr xg yg xb yb = .ok M) :
    M.m10 + M.m11 + M.m12 = 1 := by
  have hw := calc_preserves_wp (whitepointV x y) xr yr xg yg xb yb M h
  have h2 := congrArg Vec3.y hw
  simp only [mulVec3, whitepointV, mul_one] at h2
  exact h2

/-- Witness for C10 at the sRGB-like primaries with the D65 white
point. -/
theorem C10_luminance_row_sums_to_one_witness :
    (calcM (calc_RGB_to_XYZ (whitepointV 0.31272 0.32903)
        0.640 0.330 0.300 0.600 0.150 0.060)).m10 +
      (calcM (calc_RGB_to_XYZ (whitepointV 0.31272 0.32903)
        0.640 0.330 0.300 0.600 0.150 0.060)).m11 +
      (calcM (calc_RGB_to_XYZ (whitepointV 0.31272 0.32903)
        0.640 0.330 0.300 0.600 0.150 0.060)).m12 = 1 :=
  C10_luminance_row_sums_to_one 0.31272 0.32903
    0.640 0.330 0.300 0.600 0.150 0.060
    (calcM (calc_RGB_to_XYZ (whitepointV 0.31272 0.32903)
      0.640 0.330 0.300 0.600 0.150 0.060))
    (by norm_num [calc_RGB_to_XYZ, npInv, xyzMatrix, colScale, mulVec3,
      inv3, det3, whitepointV, calcM, Except.toOption])

end Wattbar
